import Mathlib

/-!
Shallow embedding of the mikrotik-exporter core (mikrotik.py).

The source is a single-file Python exporter.  We model:
* RouterOS API record objects as ordered association lists from field name
  to raw string value (`Record`); `obj["k"]` is `obj.lookup k`, returning
  `none` where Python raises `KeyError`.
* Python runtime values that can reach the exposition encoder (`Value`):
  raw strings, Python ints and Python floats.  Floats are modelled as
  rationals; `renderFloat` mirrors CPython str() on floats whose value has
  a short exact decimal form (the only floats the exporter produces from
  its decimal inputs); scientific notation and inexact binary artefacts do
  not arise for the modelled inputs.
* `int(...)` and `float(...)` as partial decimal parsers (`pyInt`,
  `pyFloat`); `none` stands for Python raising ValueError.  (CPython also
  strips surrounding whitespace and accepts exponents / inf / nan, which
  the modelled device fields never contain.)
* Each record-processing body of the `scrape_mikrotik` generator as a
  function returning the list of samples yielded before the body either
  finishes or raises (`List Sample × Option Err`); a generator delivers
  every value yielded before an exception escapes, which is why the error
  cases keep their partial sample list.
* The generator `wrap` as a fold over the sample list with the set of
  already-declared metric names carried as the list of its elements.
-/

namespace Mikrotik

/-- Python runtime value reaching the encoder: raw API string, int, or float
(modelled as an exact rational). -/
inductive Value where
  | s (v : String)
  | i (v : Int)
  | f (v : ℚ)
deriving DecidableEq

/-- One decoded RouterOS API object: ordered field-name/value pairs. -/
abbrev Record := List (String × String)

/-- One sample yielded by `scrape_mikrotik`: the tuple
(name, tp, value, labels); labels keep insertion order. -/
structure Sample where
  name : String
  tp : String
  value : Value
  labels : List (String × Value)
deriving DecidableEq

/-- Python exceptions relevant to the scrape: KeyError (missing dict key,
carrying the key) and ValueError (failed int()/float() conversion,
carrying the offending string). -/
inductive Err where
  | keyError (k : String)
  | valueError (v : String)
deriving DecidableEq

def digitVal (c : Char) : Nat := c.toNat - 48

/-- Value of a list of decimal digits, `none` when empty or non-digit:
the core of Python int() parsing. -/
def parseDigits : List Char → Option Nat
  | [] => none
  | cs => if cs.all Char.isDigit then some (cs.foldl (fun a c => a * 10 + digitVal c) 0) else none

/-- Python int() on a string: optional sign then decimal digits. -/
def pyInt (s : String) : Option Int :=
  match s.toList with
  | '-' :: t => (parseDigits t).map (fun n => -(n : Int))
  | '+' :: t => (parseDigits t).map (fun n => (n : Int))
  | cs => (parseDigits cs).map (fun n => (n : Int))

def digitsNum (cs : List Char) : Nat := cs.foldl (fun a c => a * 10 + digitVal c) 0

/-- Unsigned part of Python float() parsing: digits with an optional single
decimal point (at least one digit overall). -/
def pyFloatBody (cs : List Char) : Option ℚ :=
  match cs.splitOn '.' with
  | [ip] => (parseDigits ip).map (fun n => (n : ℚ))
  | [ip, fp] =>
      if ip.isEmpty && fp.isEmpty then none
      else if ip.all Char.isDigit && fp.all Char.isDigit then
        some ((digitsNum ip : ℚ) + (digitsNum fp : ℚ) / (10 : ℚ) ^ fp.length)
      else none
  | _ => none

/-- Python float() on a string: optional sign then `pyFloatBody`. -/
def pyFloat (s : String) : Option ℚ :=
  match s.toList with
  | '-' :: t => (pyFloatBody t).map (fun q => -q)
  | '+' :: t => pyFloatBody t
  | cs => pyFloatBody cs

/-- Smallest exponent k with d dividing 10^k (searched up to 40), i.e. the
number of decimal digits needed for an exact rendering. -/
def decExp (d : Nat) : Option Nat :=
  (List.range 40).find? (fun k => 10 ^ k % d == 0)

/-- CPython str() on a float holding the exact rational q, for rationals
with a finite decimal expansion: integral values get a trailing ".0",
fractional values print their minimal decimal digits. -/
def renderFloat (q : ℚ) : String :=
  match decExp q.den with
  | none => toString q
  | some k =>
    if k = 0 then toString q.num ++ ".0"
    else
      let m := q.num.natAbs * ((10 ^ k) / q.den)
      let fr := Nat.toDigits 10 (m % 10 ^ k)
      (if q.num < 0 then "-" else "") ++ toString (m / 10 ^ k) ++ "." ++
        (String.mk (List.replicate (k - fr.length) '0') ++ String.mk fr)

/-- Python str() on a `Value`, as used by the %s format in `wrap`. -/
def Value.render : Value → String
  | .s v => v
  | .i v => toString v
  | .f q => renderFloat q

/-- RATE_MAPPING from the source: rate string to bits per second. -/
def RATE_MAPPING : List (String × Int) :=
  [("40Gbps", 40 * 10 ^ 9),
   ("10Gbps", 10 * 10 ^ 9),
   ("1Gbps", 10 ^ 9),
   ("100Mbps", 100 * 10 ^ 6),
   ("10Mbps", 10 * 10 ^ 6)]

/-- Body of the /interface/print loop of `scrape_mikrotik` for one record:
samples yielded, and the uncaught exception if one escapes.  The
rx/tx-error and rx/tx-drop pairs sit in try/except KeyError blocks: a
missing field abandons the rest of its block but keeps what was already
yielded.  interface-running converts tx-byte with int(). -/
def interfaceRecord (target : String) (obj : Record) : List Sample × Option Err :=
  match obj.lookup "name" with
  | none => ([], some (Err.keyError "name"))
  | some nm =>
  match obj.lookup "type" with
  | none => ([], some (Err.keyError "type"))
  | some ty =>
  let labels : List (String × Value) := [("host", .s target), ("port", .s nm), ("type", .s ty)]
  match obj.lookup "rx-byte" with
  | none => ([], some (Err.keyError "rx-byte"))
  | some rxb =>
  let s1 : Sample := ⟨"interface-rx-bytes", "counter", .s rxb, labels⟩
  match obj.lookup "tx-byte" with
  | none => ([s1], some (Err.keyError "tx-byte"))
  | some txb =>
  let s2 : Sample := ⟨"interface-tx-bytes", "counter", .s txb, labels⟩
  match obj.lookup "rx-packet" with
  | none => ([s1, s2], some (Err.keyError "rx-packet"))
  | some rxp =>
  let s3 : Sample := ⟨"interface-rx-packets", "counter", .s rxp, labels⟩
  match obj.lookup "tx-packet" with
  | none => ([s1, s2, s3], some (Err.keyError "tx-packet"))
  | some txp =>
  let s4 : Sample := ⟨"interface-tx-packets", "counter", .s txp, labels⟩
  let errSamples : List Sample :=
    match obj.lookup "rx-error" with
    | none => []
    | some rxe =>
      let e1 : Sample := ⟨"interface-rx-errors", "counter", .s rxe, labels⟩
      match obj.lookup "tx-error" with
      | none => [e1]
      | some txe => [e1, ⟨"interface-tx-errors", "counter", .s txe, labels⟩]
  let dropSamples : List Sample :=
    match obj.lookup "rx-drop" with
    | none => []
    | some rxd =>
      let d1 : Sample := ⟨"interface-rx-drops", "counter", .s rxd, labels⟩
      match obj.lookup "tx-drop" with
      | none => [d1]
      | some txd => [d1, ⟨"interface-tx-drops", "counter", .s txd, labels⟩]
  let base := [s1, s2, s3, s4] ++ errSamples ++ dropSamples
  match pyInt txb with
  | none => (base, some (Err.valueError txb))
  | some n =>
  let s5 : Sample := ⟨"interface-running", "gauge", .i n, labels⟩
  match obj.lookup "actual-mtu" with
  | none => (base ++ [s5], some (Err.keyError "actual-mtu"))
  | some mtu => (base ++ [s5, ⟨"interface-actual-mtu", "gauge", .s mtu, labels⟩], none)

/-- Body of the /interface/ethernet/monitor loop for one record.  An
unknown rate raises KeyError out of the RATE_MAPPING dict lookup, which is
outside the try (only `obj["rate"]` is guarded).  The rx-power sample
reads the sfp-tx-power field again, exactly as the source does.  The
sfp-module-present handler catches only KeyError, so a failing int()
conversion raises ValueError uncaught. -/
def monitorRecord (target : String) (obj : Record) : List Sample × Option Err :=
  match obj.lookup "name" with
  | none => ([], some (Err.keyError "name"))
  | some nm =>
  let labels0 : List (String × Value) := [("host", .s target), ("port", .s nm)]
  let rateRes : List Sample × Option Err :=
    match obj.lookup "rate" with
    | none => ([], none)
    | some rate =>
      match RATE_MAPPING.lookup rate with
      | none => ([], some (Err.keyError rate))
      | some bps => ([⟨"interface-rate", "gauge", .i bps, labels0⟩], none)
  match rateRes with
  | (rs, some e) => (rs, some e)
  | (rs, none) =>
  let labels1 : List (String × Value) :=
    match obj.lookup "sfp-vendor-name" with
    | none => labels0
    | some v => labels0 ++ [("sfp-vendor-name", Value.s v)]
  let labels2 : List (String × Value) :=
    match obj.lookup "sfp-vendor-part-number" with
    | none => labels1
    | some v => labels1 ++ [("sfp-vendor-part-number", Value.s v)]
  let sfpSamples : List Sample :=
    match obj.lookup "sfp-temperature" with
    | none => []
    | some t =>
      let m1 : Sample := ⟨"interface-sfp-temperature", "gauge", .s t, labels2⟩
      match obj.lookup "sfp-tx-power" with
      | none => [m1]
      | some tx =>
        let m2 : Sample := ⟨"interface-sfp-tx-power", "gauge", .s tx, labels2⟩
        match obj.lookup "sfp-tx-power" with
        | none => [m1, m2]
        | some tx2 => [m1, m2, ⟨"interface-sfp-rx-power", "gauge", .s tx2, labels2⟩]
  match obj.lookup "status" with
  | none => (rs ++ sfpSamples, some (Err.keyError "status"))
  | some st =>
  let labels3 := labels2 ++ [("status", Value.s st)]
  match obj.lookup "sfp-module-present" with
  | none => (rs ++ sfpSamples ++ [⟨"interface-status", "gauge", .i 1, labels3⟩], none)
  | some mp =>
    match pyInt mp with
    | none => (rs ++ sfpSamples, some (Err.valueError mp))
    | some mpn =>
      (rs ++ sfpSamples ++
        [⟨"interface-status", "gauge", .i 1, labels3 ++ [("sfp-module-present", Value.i mpn)]⟩],
       none)

/-- Body of the /interface/ethernet/poe/monitor loop for one record.  The
two poe yields share one try/except KeyError; the float()/int()
conversions can still raise ValueError uncaught, and a KeyError on
poe-out-current keeps the already-yielded voltage sample. -/
def poeRecord (target : String) (obj : Record) : List Sample × Option Err :=
  match obj.lookup "name" with
  | none => ([], some (Err.keyError "name"))
  | some nm =>
  let labels : List (String × Value) := [("host", .s target), ("port", .s nm)]
  let poeRes : List Sample × Option Err :=
    match obj.lookup "poe-out-voltage" with
    | none => ([], none)
    | some pv =>
      match pyFloat pv with
      | none => ([], some (Err.valueError pv))
      | some q =>
        let p1 : Sample := ⟨"poe-out-voltage", "gauge", .f q, labels⟩
        match obj.lookup "poe-out-current" with
        | none => ([p1], none)
        | some pc =>
          match pyInt pc with
          | none => ([p1], some (Err.valueError pc))
          | some ci => ([p1, ⟨"poe-out-current", "gauge", .f ((ci : ℚ) / 1000), labels⟩], none)
  match poeRes with
  | (ps, some e) => (ps, some e)
  | (ps, none) =>
  match obj.lookup "poe-out-status" with
  | none => (ps, some (Err.keyError "poe-out-status"))
  | some st => (ps ++ [⟨"poe-out-status", "gauge", .i 1, labels ++ [("status", Value.s st)]⟩], none)

/-- Body of the /system/resource/print loop for one record; bad-blocks is
the only guarded field. -/
def resourceRecord (target : String) (obj : Record) : List Sample × Option Err :=
  let labels : List (String × Value) := [("host", .s target)]
  match obj.lookup "write-sect-total" with
  | none => ([], some (Err.keyError "write-sect-total"))
  | some w =>
  let r1 : Sample := ⟨"system-write-sect-total", "counter", .s w, labels⟩
  match obj.lookup "free-memory" with
  | none => ([r1], some (Err.keyError "free-memory"))
  | some fm =>
  let r2 : Sample := ⟨"system-free-memory", "gauge", .s fm, labels⟩
  let badSamples : List Sample :=
    match obj.lookup "bad-blocks" with
    | none => []
    | some b => [⟨"system-bad-blocks", "counter", .s b, labels⟩]
  match obj.lookup "version" with
  | none => ([r1, r2] ++ badSamples, some (Err.keyError "version"))
  | some v1 =>
  match obj.lookup "cpu" with
  | none => ([r1, r2] ++ badSamples, some (Err.keyError "cpu"))
  | some v2 =>
  match obj.lookup "cpu-count" with
  | none => ([r1, r2] ++ badSamples, some (Err.keyError "cpu-count"))
  | some v3 =>
  match obj.lookup "board-name" with
  | none => ([r1, r2] ++ badSamples, some (Err.keyError "board-name"))
  | some v4 =>
  match obj.lookup "architecture-name" with
  | none => ([r1, r2] ++ badSamples, some (Err.keyError "architecture-name"))
  | some v5 =>
    ([r1, r2] ++ badSamples ++
      [⟨"system-version", "gauge", .i 1,
        labels ++ [("version", .s v1), ("cpu", .s v2), ("cpu-count", .s v3),
          ("board-name", .s v4), ("architecture-name", .s v5)]⟩],
     none)

/-- Body of the /system/health/print loop for one record: each item whose
value parses with float() becomes a gauge of that value, otherwise a
constant-1 gauge with the raw value as a state label; the only exception
(ValueError) is caught, so this battery cannot raise. -/
def healthRecord (target : String) (obj : Record) : List Sample × Option Err :=
  (obj.map (fun kv =>
    match pyFloat kv.2 with
    | none =>
      ⟨"system-health-" ++ kv.1, "gauge", Value.i 1,
        [("host", Value.s target), ("state", Value.s kv.2)]⟩
    | some q => ⟨"system-health-" ++ kv.1, "gauge", Value.f q, [("host", Value.s target)]⟩),
   none)

/-- One battery loop of `scrape_mikrotik`: iterate the answer records,
stop at the first !trap or !done marker, and run the per-record body on
each remaining record, propagating its uncaught exception. -/
def runRecords (f : Record → List Sample × Option Err) :
    List (String × Record) → List Sample × Option Err
  | [] => ([], none)
  | (resp, obj) :: rest =>
    if resp == "!trap" || resp == "!done" then ([], none)
    else
      match f obj with
      | (s, some e) => (s, some e)
      | (s, none) =>
        match runRecords f rest with
        | (s2, e2) => (s ++ s2, e2)

/-- The five full answers `read_full_answer` returns to `scrape_mikrotik`,
one per command it sends, each a list of (reply-word, object) pairs. -/
structure DeviceAnswers where
  interfacePrint : List (String × Record)
  ethernetMonitor : List (String × Record)
  poeMonitor : List (String × Record)
  systemResource : List (String × Record)
  systemHealth : List (String × Record)

/-- The `scrape_mikrotik` generator for one target as a whole: the samples
delivered to the consumer, the escaped exception if any, and whether the
final `mk.close()` statement was executed.  The source calls close only as
the last statement after the fifth battery, so an escaping exception
leaves the session open. -/
def scrape_mikrotik (target : String) (ans : DeviceAnswers) :
    List Sample × Option Err × Bool :=
  match runRecords (interfaceRecord target) ans.interfacePrint with
  | (s1, some e) => (s1, some e, false)
  | (s1, none) =>
  match runRecords (monitorRecord target) ans.ethernetMonitor with
  | (s2, some e) => (s1 ++ s2, some e, false)
  | (s2, none) =>
  match runRecords (poeRecord target) ans.poeMonitor with
  | (s3, some e) => (s1 ++ s2 ++ s3, some e, false)
  | (s3, none) =>
  match runRecords (resourceRecord target) ans.systemResource with
  | (s4, some e) => (s1 ++ s2 ++ s3 ++ s4, some e, false)
  | (s4, none) =>
  match runRecords (healthRecord target) ans.systemHealth with
  | (s5, some e) => (s1 ++ s2 ++ s3 ++ s4 ++ s5, some e, false)
  | (s5, none) => (s1 ++ s2 ++ s3 ++ s4 ++ s5, none, true)

/-- The label block of a value line: empty without labels, otherwise the
brace-enclosed comma-joined key="value" pairs in insertion order. -/
def labelBlock (labels : List (String × Value)) : String :=
  match labels with
  | [] => ""
  | _ =>
    "\x7b" ++ String.intercalate "," (labels.map (fun j => j.1 ++ "=\"" ++ j.2.render ++ "\"")) ++
      "\x7d"

/-- One line of `wrap` output, before string formatting: either a type
declaration or a value line, tagged with the unprefixed metric name. -/
inductive EncLine where
  | typeDecl (name tp : String)
  | value (name : String) (labels : List (String × Value)) (v : Value)
deriving DecidableEq

/-- String formatting of an `EncLine` with the metric-name PREFIX applied,
matching the two %-format strings of `wrap`. -/
def EncLine.render (pfx : String) : EncLine → String
  | .typeDecl n tp => "# TYPE " ++ (pfx ++ n) ++ " " ++ tp
  | .value n ls v => (pfx ++ n) ++ labelBlock ls ++ " " ++ v.render

/-- Structured mirror of the `wrap` loop: the metrics_seen set is carried
as the list of its elements. -/
def wrapE (seen : List String) : List Sample → List EncLine
  | [] => []
  | s :: rest =>
    if seen.contains s.name then
      .value s.name s.labels s.value :: wrapE seen rest
    else
      .typeDecl s.name s.tp :: .value s.name s.labels s.value :: wrapE (s.name :: seen) rest

/-- The `wrap` loop at string level, translated directly from the source:
emit a "# TYPE" line the first time a name is seen, then the value line. -/
def wrapGo (pfx : String) (seen : List String) : List Sample → List String
  | [] => []
  | s :: rest =>
    if seen.contains s.name then
      ((pfx ++ s.name) ++ labelBlock s.labels ++ " " ++ s.value.render) :: wrapGo pfx seen rest
    else
      ("# TYPE " ++ (pfx ++ s.name) ++ " " ++ s.tp) ::
        ((pfx ++ s.name) ++ labelBlock s.labels ++ " " ++ s.value.render) ::
          wrapGo pfx (s.name :: seen) rest

/-- The `wrap` generator: metrics_seen starts empty on every call (one
call per request). -/
def wrap (pfx : String) (samples : List Sample) : List String := wrapGo pfx [] samples

/-- Does this line declare the type of (unprefixed) metric name n. -/
def EncLine.isTypeFor (n : String) : EncLine → Bool
  | .typeDecl m _ => m == n
  | .value _ _ _ => false

/-- Does this line concern (unprefixed) metric name n at all. -/
def EncLine.isFor (n : String) : EncLine → Bool
  | .typeDecl m _ => m == n
  | .value m _ _ => m == n

/-- Python truthiness of the PROMETHEUS_BEARER_TOKEN global (None or the
empty string are falsy). -/
def tokenTruthy : Option String → Bool
  | none => false
  | some t => !(t == "")

/-- The guard of `view_export`: PROMETHEUS_BEARER_TOKEN and
request.token != PROMETHEUS_BEARER_TOKEN; request.token is None when the
request carries no token. -/
def forbiddenCheck (cfg tok : Option String) : Bool :=
  tokenTruthy cfg && !(tok == cfg)

/-- The `view_export` handler boundary: raise Forbidden before any body is
produced when the guard fires, otherwise stream the body. -/
def view_export (cfg tok : Option String) (body : List String) : Except String (List String) :=
  if forbiddenCheck cfg tok then Except.error "Invalid bearer token" else Except.ok body

/-- A battery answer holding only the terminating !done sentence. -/
def doneBattery : List (String × Record) := [("!done", [])]

/-- The synthetic interface record of the C2 scenario. -/
def c2record : Record :=
  [("name", "ether1"), ("type", "ether"), ("rx-byte", "100"), ("tx-byte", "200"),
   ("rx-packet", "1"), ("tx-packet", "2"), ("actual-mtu", "1500")]

/-- Device answers where only /interface/print returns the C2 record. -/
def c2ans : DeviceAnswers :=
  ⟨[("!re", c2record), ("!done", [])], doneBattery, doneBattery, doneBattery, doneBattery⟩

def c2labels (target : String) : List (String × Value) :=
  [("host", Value.s target), ("port", Value.s "ether1"), ("type", Value.s "ether")]

/-- The six samples the C2 record is expected to produce. -/
def c2expected (target : String) : List Sample :=
  [⟨"interface-rx-bytes", "counter", Value.s "100", c2labels target⟩,
   ⟨"interface-tx-bytes", "counter", Value.s "200", c2labels target⟩,
   ⟨"interface-rx-packets", "counter", Value.s "1", c2labels target⟩,
   ⟨"interface-tx-packets", "counter", Value.s "2", c2labels target⟩,
   ⟨"interface-running", "gauge", Value.i 200, c2labels target⟩,
   ⟨"interface-actual-mtu", "gauge", Value.s "1500", c2labels target⟩]

/-- A monitor record carrying distinct tx-power and rx-power readings. -/
def c6obj : Record :=
  [("name", "sfp1"), ("sfp-temperature", "30"), ("sfp-tx-power", "5"),
   ("sfp-rx-power", "7"), ("status", "link-ok")]

/-- Device answers where only /system/health/print returns a reading, the
integral numeric string "40". -/
def c7ans : DeviceAnswers :=
  ⟨doneBattery, doneBattery, doneBattery, doneBattery,
   [("!re", [("voltage", "40")]), ("!done", [])]⟩

/-- A monitor record whose rate string is absent from RATE_MAPPING. -/
def c8obj : Record := [("name", "e5"), ("rate", "7Gbps")]

/-- Device answers whose monitor battery aborts on the unknown rate. -/
def c8ans : DeviceAnswers :=
  ⟨doneBattery, [("!re", c8obj)], doneBattery, doneBattery, doneBattery⟩

/-- A monitor record whose sfp-module-present value is the parameter v. -/
def c10monObj (v : String) : Record :=
  [("name", "e0"), ("status", "up"), ("sfp-module-present", v)]

/-- Device answers whose monitor battery carries `c10monObj v` and whose
poe battery would still produce a sample if it were reached. -/
def c10ans (v : String) : DeviceAnswers :=
  ⟨doneBattery, [("!re", c10monObj v)],
   [("!re", [("name", "e1"), ("poe-out-status", "on")])], doneBattery, doneBattery⟩

/-- Boolean contains on lists of strings agrees with decidable
membership. -/
theorem strContainsDecide (l : List String) (a : String) : l.contains a = decide (a ∈ l) := by
  simp

/-- Rendering the structured wrap mirror reproduces the string-level wrap
output line for line. -/
theorem wrapE_render_agree (pfx : String) (seen : List String) (samples : List Sample) :
    wrapGo pfx seen samples = (wrapE seen samples).map (EncLine.render pfx) := by
  induction samples generalizing seen with
  | nil => rfl
  | cons s rest ih =>
    by_cases h : s.name ∈ seen
    · simp [wrapGo, wrapE, strContainsDecide, h, ih, EncLine.render]
    · simp [wrapGo, wrapE, strContainsDecide, h, ih, EncLine.render]

/-- Number of type-declaration lines wrap emits for one metric name, as a
function of the seen set and the incoming names. -/
theorem wrapE_countP_typeFor (n : String) (samples : List Sample) :
    ∀ seen : List String,
      (wrapE seen samples).countP (EncLine.isTypeFor n) =
        if n ∈ seen then 0 else if n ∈ samples.map Sample.name then 1 else 0 := by
  induction samples with
  | nil =>
    intro seen
    simp [wrapE]
  | cons s rest ih =>
    intro seen
    by_cases hs : s.name ∈ seen
    · by_cases hn : n ∈ seen
      · simp [wrapE, strContainsDecide, hs, hn, List.countP_cons, EncLine.isTypeFor, ih]
      · have hne : s.name ≠ n := fun he => hn (he ▸ hs)
        simp [wrapE, strContainsDecide, hs, hn, List.countP_cons, EncLine.isTypeFor, ih,
          hne, Ne.symm hne]
    · by_cases he : s.name = n
      · subst he
        simp [wrapE, strContainsDecide, hs, List.countP_cons, EncLine.isTypeFor, ih]
      · simp [wrapE, strContainsDecide, hs, he, List.countP_cons, EncLine.isTypeFor, ih,
          Ne.symm he]

/-- Among all lines wrap emits that concern a given metric name not yet
seen, the first one is its type declaration. -/
theorem wrapE_find_typeFirst (n : String) (samples : List Sample) :
    ∀ seen : List String, n ∉ seen → n ∈ samples.map Sample.name →
      ∃ tp, (wrapE seen samples).find? (EncLine.isFor n) = some (EncLine.typeDecl n tp) := by
  induction samples with
  | nil =>
    intro seen _ hmem
    simp at hmem
  | cons s rest ih =>
    intro seen hseen hmem
    by_cases hs : s.name ∈ seen
    · have hne : s.name ≠ n := fun he => hseen (he ▸ hs)
      have hmem2 : n ∈ rest.map Sample.name := by
        rw [List.map_cons] at hmem
        rcases List.mem_cons.mp hmem with h | h
        · exact absurd h.symm hne
        · exact h
      obtain ⟨tp, htp⟩ := ih seen hseen hmem2
      refine ⟨tp, ?_⟩
      have h1 : wrapE seen (s :: rest) = .value s.name s.labels s.value :: wrapE seen rest := by
        simp [wrapE, strContainsDecide, hs]
      rw [h1, List.find?_cons_of_neg _ (by simp [EncLine.isFor, hne]), htp]
    · by_cases he : s.name = n
      · refine ⟨s.tp, ?_⟩
        have h1 : wrapE seen (s :: rest) =
            .typeDecl s.name s.tp :: .value s.name s.labels s.value :: wrapE (s.name :: seen) rest := by
          simp [wrapE, strContainsDecide, hs]
        rw [h1, List.find?_cons_of_pos _ (by simp [EncLine.isFor, he]), he]
      · have hmem2 : n ∈ rest.map Sample.name := by
          rw [List.map_cons] at hmem
          rcases List.mem_cons.mp hmem with h | h
          · exact absurd h.symm he
          · exact h
        have hseen2 : n ∉ (s.name :: seen) := by
          intro h
          rcases List.mem_cons.mp h with h | h
          · exact he h.symm
          · exact hseen h
        obtain ⟨tp, htp⟩ := ih (s.name :: seen) hseen2 hmem2
        refine ⟨tp, ?_⟩
        have h1 : wrapE seen (s :: rest) =
            .typeDecl s.name s.tp :: .value s.name s.labels s.value :: wrapE (s.name :: seen) rest := by
          simp [wrapE, strContainsDecide, hs]
        rw [h1, List.find?_cons_of_neg _ (by simp [EncLine.isFor, he]),
          List.find?_cons_of_neg _ (by simp [EncLine.isFor, he]), htp]

/-- C1: for every metric name among the samples of one request, wrap
(starting from the empty seen set, as each request does) emits exactly
one type-declaration line for that name, that line appears before every
value line using the name, and the request's string output is the
rendering of exactly these structured lines with the prefix applied. -/
theorem wrap_type_decl_once (pfx : String) (samples : List Sample) (n : String)
    (hmem : n ∈ samples.map Sample.name) :
    (wrapE [] samples).countP (EncLine.isTypeFor n) = 1
    ∧ (∃ tp, (wrapE [] samples).find? (EncLine.isFor n) = some (EncLine.typeDecl n tp))
    ∧ wrap pfx samples = (wrapE [] samples).map (EncLine.render pfx) := by
  refine ⟨?_, ?_, ?_⟩
  · rw [wrapE_countP_typeFor n samples []]
    simp [hmem]
  · exact wrapE_find_typeFirst n samples [] (by simp) hmem
  · exact wrapE_render_agree pfx [] samples

def c1samples : List Sample :=
  [⟨"interface-rx-bytes", "counter", Value.s "1", []⟩,
   ⟨"interface-rx-bytes", "counter", Value.s "2", []⟩]

theorem wrap_type_decl_once_witness :
    "interface-rx-bytes" ∈ c1samples.map Sample.name
    ∧ ((wrapE [] c1samples).countP (EncLine.isTypeFor "interface-rx-bytes") = 1
       ∧ (∃ tp, (wrapE [] c1samples).find? (EncLine.isFor "interface-rx-bytes") =
            some (EncLine.typeDecl "interface-rx-bytes" tp))
       ∧ wrap "mikrotik_" c1samples = (wrapE [] c1samples).map (EncLine.render "mikrotik_")) :=
  ⟨by decide, wrap_type_decl_once "mikrotik_" c1samples "interface-rx-bytes" (by decide)⟩

/-- C2: the synthetic interface record (name ether1, type ether, rx-byte
100, tx-byte 200, rx-packet 1, tx-packet 2, actual-mtu 1500, no
error/drop fields) yields exactly the six samples rx-bytes 100, tx-bytes
200, rx-packets 1, tx-packets 2, running 200 and actual-mtu 1500, each
labelled host=target, port=ether1, type=ether in that insertion order,
and the scrape finishes cleanly. -/
theorem interface_scrape_six_samples (target : String) :
    scrape_mikrotik target c2ans = (c2expected target, none, true) := rfl

/-- C3: with a configured (non-empty) bearer token, a request whose token
is missing or different is rejected with the Forbidden error and no body;
a matching token, or no configured token, lets streaming proceed. -/
theorem bearer_token_gate (t : String) (tok : Option String) (body : List String) (ht : t ≠ "") :
    (tok ≠ some t → view_export (some t) tok body = Except.error "Invalid bearer token")
    ∧ (tok = some t → view_export (some t) tok body = Except.ok body)
    ∧ (∀ tok2 : Option String, view_export none tok2 body = Except.ok body) := by
  refine ⟨?_, ?_, ?_⟩
  · intro hne
    simp [view_export, forbiddenCheck, tokenTruthy, ht, hne]
  · intro he
    subst he
    simp [view_export, forbiddenCheck, tokenTruthy]
  · intro tok2
    simp [view_export, forbiddenCheck, tokenTruthy]

theorem bearer_token_gate_witness :
    ("secret" : String) ≠ ""
    ∧ (((none : Option String) ≠ some "secret" →
          view_export (some "secret") none ["x"] = Except.error "Invalid bearer token")
       ∧ ((none : Option String) = some "secret" →
          view_export (some "secret") none ["x"] = Except.ok ["x"])
       ∧ (∀ tok2 : Option String, view_export none tok2 ["x"] = Except.ok ["x"])) :=
  ⟨by decide, bearer_token_gate "secret" none ["x"] (by decide)⟩

/-- C4: on a monitor record exposing a rate field, an unknown rate string
makes the RATE_MAPPING dict lookup raise KeyError out of the guarded
region, aborting the record with no interface-rate sample (and no
placeholder value); a known rate string yields the link-rate gauge with
the table's bits-per-second value. -/
theorem unknown_rate_hard_error (target nm r : String) (obj : Record)
    (hnm : obj.lookup "name" = some nm) (hr : obj.lookup "rate" = some r) :
    (RATE_MAPPING.lookup r = none → monitorRecord target obj = ([], some (Err.keyError r)))
    ∧ (∀ bps : Int, RATE_MAPPING.lookup r = some bps →
        (monitorRecord target obj).1.head? =
          some ⟨"interface-rate", "gauge", Value.i bps,
            [("host", Value.s target), ("port", Value.s nm)]⟩) := by
  constructor
  · intro hmiss
    simp [monitorRecord, hnm, hr, hmiss]
  · intro bps hbps
    simp only [monitorRecord, hnm, hr, hbps]
    repeat' split
    all_goals simp

theorem unknown_rate_hard_error_witness :
    c8obj.lookup "name" = some "e5"
    ∧ c8obj.lookup "rate" = some "7Gbps"
    ∧ ((RATE_MAPPING.lookup "7Gbps" = none →
          monitorRecord "r" c8obj = ([], some (Err.keyError "7Gbps")))
       ∧ (∀ bps : Int, RATE_MAPPING.lookup "7Gbps" = some bps →
          (monitorRecord "r" c8obj).1.head? =
            some ⟨"interface-rate", "gauge", Value.i bps,
              [("host", Value.s "r"), ("port", Value.s "e5")]⟩)) :=
  ⟨rfl, rfl, unknown_rate_hard_error "r" "e5" "7Gbps" c8obj rfl rfl⟩

/-- An interface record with tx-error present but rx-error absent. -/
def c5obj : Record :=
  [("name", "ether1"), ("type", "ether"), ("rx-byte", "100"), ("tx-byte", "200"),
   ("rx-packet", "1"), ("tx-packet", "2"), ("actual-mtu", "1500"), ("tx-error", "7")]

/-- C5 counterexample: on an interface record with tx-error present but
rx-error absent, the KeyError on rx-error abandons the whole try block,
so contrary to the claim no interface-tx-errors sample is emitted (the
record otherwise completes normally). -/
theorem optional_skip_counterexample :
    c5obj.lookup "tx-error" = some "7"
    ∧ c5obj.lookup "rx-error" = none
    ∧ (interfaceRecord "r" c5obj).2 = none
    ∧ (interfaceRecord "r" c5obj).1.countP (fun s => s.name == "interface-tx-errors") = 0 :=
  ⟨rfl, rfl, rfl, rfl⟩

/-- C5 amended: a missing optional field skips that sample and every
later sample of the same try block: with rx-error absent, neither error
counter is emitted even when tx-error is present; samples already yielded
before the failing lookup survive, so a power record with output-voltage
present but output-current absent still emits exactly one output-voltage
gauge. -/
theorem optional_skip_try_block (target : String) (obj obj2 : Record) (nm v : String) (q : ℚ)
    (h1 : obj.lookup "rx-error" = none)
    (hnm : obj2.lookup "name" = some nm)
    (h2 : obj2.lookup "poe-out-voltage" = some v)
    (hq : pyFloat v = some q)
    (h3 : obj2.lookup "poe-out-current" = none) :
    (interfaceRecord target obj).1.countP (fun s => s.name == "interface-rx-errors") = 0
    ∧ (interfaceRecord target obj).1.countP (fun s => s.name == "interface-tx-errors") = 0
    ∧ (poeRecord target obj2).1.countP (fun s => s.name == "poe-out-voltage") = 1 := by
  refine ⟨?_, ?_, ?_⟩
  · unfold interfaceRecord
    repeat' split
    all_goals simp_all [List.countP_cons, List.countP_append]
  · unfold interfaceRecord
    repeat' split
    all_goals simp_all [List.countP_cons, List.countP_append]
  · simp only [poeRecord, hnm, h2, hq, h3]
    repeat' split
    all_goals simp_all [List.countP_cons, List.countP_append]

def c5obj2 : Record := [("name", "e1"), ("poe-out-voltage", "24.1")]

theorem optional_skip_try_block_witness :
    c5obj.lookup "rx-error" = none
    ∧ c5obj2.lookup "name" = some "e1"
    ∧ c5obj2.lookup "poe-out-voltage" = some "24.1"
    ∧ (∃ q : ℚ, pyFloat "24.1" = some q)
    ∧ c5obj2.lookup "poe-out-current" = none
    ∧ ((interfaceRecord "r" c5obj).1.countP (fun s => s.name == "interface-rx-errors") = 0
       ∧ (interfaceRecord "r" c5obj).1.countP (fun s => s.name == "interface-tx-errors") = 0
       ∧ (poeRecord "r" c5obj2).1.countP (fun s => s.name == "poe-out-voltage") = 1) :=
  ⟨rfl, rfl, rfl, ⟨_, rfl⟩, rfl,
   optional_skip_try_block "r" c5obj c5obj2 "e1" "24.1" _ rfl rfl rfl rfl rfl⟩

theorem decExp_one : decExp 1 = some 0 := rfl

/-- CPython str() of a float holding an integral value appends ".0". -/
theorem renderFloat_intCast (m : Int) : renderFloat (m : ℚ) = toString m ++ ".0" := by
  unfold renderFloat
  rw [Rat.den_intCast, decExp_one, Rat.num_intCast]
  simp

/-- C7 amended: values the source passes through unchanged render
verbatim (raw strings as themselves, Python ints in integer form), but
every value converted through float() — the numeric system-health
readings and the poe voltage/current — renders in Python float notation,
so an integral reading such as the health value "40" renders as "40.0"
with a trailing ".0". -/
theorem render_value_forms (s : String) (n m : Int) :
    Value.render (Value.s s) = s
    ∧ Value.render (Value.i n) = toString n
    ∧ Value.render (Value.f (m : ℚ)) = toString m ++ ".0"
    ∧ healthRecord "r" [("voltage", "40")] =
        ([⟨"system-health-voltage", "gauge", Value.f 40, [("host", Value.s "r")]⟩], none) :=
  ⟨rfl, rfl, renderFloat_intCast m, by decide⟩

/-- C6: on a monitor record carrying sfp-rx-power 7 and sfp-tx-power 5,
the emitted interface-sfp-rx-power gauge carries the value 5 read from
the sfp-tx-power field, not the record's sfp-rx-power reading 7: the
source reads the wrong field for the receive-power sample. -/
theorem sfp_rx_power_reads_tx_field :
    c6obj.lookup "sfp-rx-power" = some "7"
    ∧ c6obj.lookup "sfp-tx-power" = some "5"
    ∧ (monitorRecord "r" c6obj).1.filter (fun s => s.name == "interface-sfp-rx-power") =
        [⟨"interface-sfp-rx-power", "gauge", Value.s "5",
          [("host", Value.s "r"), ("port", Value.s "sfp1")]⟩] :=
  ⟨rfl, rfl, rfl⟩

/-- C7 counterexample: the system-health reading voltage "40" is converted
with float() and rendered through str(), producing the value text "40.0"
on the exposition line, not "40". -/
theorem integral_float_renders_artifact :
    pyFloat "40" = some 40
    ∧ (scrape_mikrotik "r" c7ans).1 =
        [⟨"system-health-voltage", "gauge", Value.f 40, [("host", Value.s "r")]⟩]
    ∧ wrap "mikrotik_" (scrape_mikrotik "r" c7ans).1 =
        ["# TYPE mikrotik_system-health-voltage gauge",
         "mikrotik_system-health-voltage\x7bhost=\"r\"\x7d 40.0"]
    ∧ Value.render (Value.f 40) ≠ "40" := by
  refine ⟨by decide, by decide, by decide, by decide⟩

/-- Whether mk.close() ran is equivalent to no exception having escaped:
the close call is only reached on the fully successful path. -/
theorem scrape_closed_iff (target : String) (ans : DeviceAnswers) :
    (scrape_mikrotik target ans).2.2 = true ↔ (scrape_mikrotik target ans).2.1 = none := by
  unfold scrape_mikrotik
  repeat' split
  all_goals simp

/-- C8: whenever the scrape of a target ends with an escaped exception
(hard error mid-battery), the mk.close() call is never executed: the
session is closed only on normal exhaustion, contrary to the claim that
every exit path closes it. -/
theorem error_skips_close (target : String) (ans : DeviceAnswers)
    (h : ∃ e, (scrape_mikrotik target ans).2.1 = some e) :
    (scrape_mikrotik target ans).2.2 = false := by
  obtain ⟨e, he⟩ := h
  cases hb : (scrape_mikrotik target ans).2.2
  · rfl
  · rw [(scrape_closed_iff target ans).mp hb] at he
    exact Option.noConfusion he

theorem error_skips_close_witness :
    (∃ e, (scrape_mikrotik "r" c8ans).2.1 = some e)
    ∧ (scrape_mikrotik "r" c8ans).2.2 = false :=
  ⟨⟨Err.keyError "7Gbps", rfl⟩, error_skips_close "r" c8ans ⟨Err.keyError "7Gbps", rfl⟩⟩

/-- On the C10 monitor record, a present but non-integer
sfp-module-present value makes the int() conversion raise an uncaught
ValueError. -/
theorem c10_monitor_record (v : String) (hv : pyInt v = none) :
    monitorRecord "r" (c10monObj v) = ([], some (Err.valueError v)) := by
  unfold monitorRecord c10monObj
  simp [List.lookup, hv]

/-- C10: a monitor record whose sfp-module-present field is present but
not parsable as an integer aborts the whole target sequence with an
uncaught ValueError: the handler catches only the KeyError case, so the
remaining batteries (here a poe battery that would still yield a sample)
produce nothing and the session is not closed. -/
theorem module_present_value_error (v : String) (hv : pyInt v = none) :
    scrape_mikrotik "r" (c10ans v) = ([], some (Err.valueError v), false) := by
  unfold scrape_mikrotik c10ans
  rw [show runRecords (interfaceRecord "r") doneBattery = ([], none) from rfl]
  simp only [runRecords]
  rw [c10_monitor_record v hv]
  simp

theorem module_present_value_error_witness :
    pyInt "true" = none
    ∧ scrape_mikrotik "r" (c10ans "true") = ([], some (Err.valueError "true"), false) :=
  ⟨by decide, module_present_value_error "true" (by decide)⟩

end Mikrotik
